import Mathlib

/-!
Shallow embedding of the Linear session-and-context module of the
vscode-linear-extension repository (src/unnamed/part_000 and
src/unnamed/part_001, two variants of the same module).

The module keeps three pieces of mutable state: the in-memory client handle
`_client`, the secret-storage entry under key "apiKey", and the
workspace-storage entry under key "linearContextIssueId".  We collect the
three into `ModuleState` and pass it explicitly.  Every external effect
(VS Code authentication sessions, UI prompts, remote Linear API calls,
storage operations that can raise) is supplied as an explicit oracle
argument: an `Except Unit α` value models a JavaScript await that either
raises (`.error ()`) or resolves (`.ok a`); `Option` models
null/undefined.  Each operation additionally returns the list of remote
client calls it issued, so that "never invokes the remote client" claims
are statements about the returned trace.
-/

namespace Linear

/-- A remote user entity, referenced by its opaque id. -/
structure User where
  id : String
deriving DecidableEq, Repr

/-- A remote team entity, referenced by its opaque id. -/
structure Team where
  id : String
deriving DecidableEq, Repr

/-- A remote issue entity, referenced by its opaque id. -/
structure Issue where
  id : String
deriving DecidableEq, Repr

/-- A remote comment entity, referenced by its opaque id. -/
structure Comment where
  id : String
deriving DecidableEq, Repr

/-- A remote workflow state entity, referenced by its opaque id. -/
structure WorkflowState where
  id : String
deriving DecidableEq, Repr

/-- A remote issue-priority value. -/
structure IssuePriorityValue where
  priority : Nat
  label : String
deriving DecidableEq, Repr

/-- The payload returned by the remote `issueCreate` call: a success flag
plus a (lazily resolvable) reference to the created issue, as in
`IssuePayload` of the Linear SDK. -/
structure IssuePayload where
  success : Bool
  issue : Issue
deriving DecidableEq, Repr

/-- The in-memory client handle `_client`: constructed either from an OAuth
access token (`new LinearClient({accessToken})`) or from an API key
(`new LinearClient({apiKey})`). -/
inductive ClientHandle where
  | accessToken (token : String)
  | apiKey (key : String)
deriving DecidableEq, Repr

/-- The module-level mutable state: `_client`, the secret-storage entry
under key "apiKey", and the workspace-storage entry under key
"linearContextIssueId". -/
structure ModuleState where
  client : Option ClientHandle
  apiKeySecret : Option String
  contextIssueId : Option String
deriving DecidableEq, Repr

/-- One call on the remote Linear client (the only outbound interface that
counts as "invoking the remote client"). -/
inductive RemoteCall where
  | viewer
  | assignedIssues
  | teamsOfViewer
  | issue (id : String)
  | issueCreate (title teamId : String) (description assigneeId stateId : Option String)
      (estimate priority : Option Int)
  | issueUpdate (issueId stateId : String)
  | commentCreate (issueId body : String)
  | workflowStates
  | issuePriorityValues
  | issueAssignee (issueId : String)
  | issueCreator (issueId : String)
  | issueTeam (issueId : String)
  | issueSubscribers (issueId : String)
  | issueComments (issueId : String) (first : Nat)
deriving DecidableEq, Repr

/-- One call on the workspace key/value storage. -/
inductive StorageOp where
  | update (key value : String)
deriving DecidableEq, Repr

/-- JavaScript truthiness test for a `string | undefined` value: `!x` is
true exactly when `x` is `undefined` or the empty string. -/
def jsFalsy : Option String → Bool
  | none => true
  | some s => s == ""

/-- Embeds `init` (part_000 lines 22-56; part_001 lines 21-55 is
identical up to an inert `?.toString()`).  `oauthSession` is the result of
`vscode.authentication.getSession(..., { createIfNone: false })`: it may
raise, resolve to no session, or resolve to a session carrying an access
token.  `keyGetRaises` says whether `_secretStorage.get("apiKey")` raises;
on success it yields the persisted key held in the state.  Any raise is
swallowed by the catch and the function returns `false`. -/
def init (s : ModuleState) (oauthSession : Except Unit (Option String))
    (keyGetRaises : Bool) : Bool × ModuleState :=
  match oauthSession with
  | .error _ => (false, s)
  | .ok (some accessToken) =>
      (true, { s with client := some (.accessToken accessToken) })
  | .ok none =>
      if keyGetRaises then (false, s)
      else if jsFalsy s.apiKeySecret then (false, s)
      else (true, { s with client := some (.apiKey (s.apiKeySecret.getD "")) })

/-- The two entries of the authentication-method quick pick shown by
`connect` in part_000. -/
inductive AuthMethod where
  | oauth
  | apiKeyEntry
deriving DecidableEq, Repr

/-- Embeds `connect` from part_000 lines 59-125.  `pick` is the result of
`showQuickPick` (raise / dismissed / a chosen method); `oauthSession` is
`getSession(..., { createIfNone: true })`; `enteredKey` is the result of
`showInputBox`; `viewerCheck` is the validating `testClient.viewer` call;
`storeRaises` says whether `_secretStorage.store("apiKey", ...)` raises
(if it does, the inner catch reports an invalid key and returns false with
nothing stored). -/
def connect (s : ModuleState)
    (pick : Except Unit (Option AuthMethod))
    (oauthSession : Except Unit (Option String))
    (enteredKey : Except Unit (Option String))
    (viewerCheck : Except Unit Unit)
    (storeRaises : Bool) : Bool × ModuleState :=
  match pick with
  | .error _ => (false, s)
  | .ok none => (false, s)
  | .ok (some .oauth) =>
      match oauthSession with
      | .error _ => (false, s)
      | .ok none => (false, s)
      | .ok (some accessToken) =>
          (true, { s with client := some (.accessToken accessToken) })
  | .ok (some .apiKeyEntry) =>
      match enteredKey with
      | .error _ => (false, s)
      | .ok apiKey =>
          if jsFalsy apiKey then (false, s)
          else
            match viewerCheck with
            | .error _ => (false, s)
            | .ok _ =>
                if storeRaises then (false, s)
                else
                  (true, { s with apiKeySecret := some (apiKey.getD ""),
                                  client := some (.apiKey (apiKey.getD "")) })

/-- Embeds `connect` from part_001 lines 58-81: the OAuth-only variant.
`oauthSession` is `getSession(..., { createIfNone: true })`. -/
def connectP1 (s : ModuleState)
    (oauthSession : Except Unit (Option String)) : Bool × ModuleState :=
  match oauthSession with
  | .error _ => (false, s)
  | .ok none => (false, s)
  | .ok (some accessToken) =>
      (true, { s with client := some (.accessToken accessToken) })

/-- Embeds `disconnect` from part_000 lines 128-162.  `deleteRaises` says
whether `_secretStorage.delete("apiKey")` raises; `sessionCheck` is the
inner `getSession` probe whose outcome (raise or not, session or not) only
drives an informational message — the inner catch swallows its errors, so
it never affects the state or the return value.  When the delete raises,
control jumps to the outer catch and returns false before `_client = null`
is reached. -/
def disconnect (s : ModuleState) (deleteRaises : Bool)
    (sessionCheck : Except Unit (Option String)) : Bool × ModuleState :=
  if deleteRaises then (false, s)
  else
    match sessionCheck with
    | _ => (true, { s with apiKeySecret := none, client := none })

/-- Embeds `disconnect` from part_001 lines 84-100: delete the stored key,
null the client, return true; if the delete raises, the catch returns
false with nothing cleared. -/
def disconnectP1 (s : ModuleState) (deleteRaises : Bool) : Bool × ModuleState :=
  if deleteRaises then (false, s)
  else (true, { s with apiKeySecret := none, client := none })

/-- Embeds `getMyIssues` (part_000 lines 164-178, identical in part_001).
`viewerRes` is the `_client.viewer` fetch, `issuesRes` the
`me.assignedIssues()` fetch; either raising lands in the catch and the
function returns null. -/
def getMyIssues (s : ModuleState) (viewerRes : Except Unit User)
    (issuesRes : Except Unit (List Issue)) :
    Option (List Issue) × ModuleState × List RemoteCall :=
  match s.client with
  | none => (none, s, [])
  | some _ =>
      match viewerRes with
      | .error _ => (none, s, [.viewer])
      | .ok _ =>
          match issuesRes with
          | .error _ => (none, s, [.viewer, .assignedIssues])
          | .ok issues => (some issues, s, [.viewer, .assignedIssues])

/-- Embeds `getMyTeams` (part_000 lines 180-194, identical in part_001). -/
def getMyTeams (s : ModuleState) (viewerRes : Except Unit User)
    (teamsRes : Except Unit (List Team)) :
    Option (List Team) × ModuleState × List RemoteCall :=
  match s.client with
  | none => (none, s, [])
  | some _ =>
      match viewerRes with
      | .error _ => (none, s, [.viewer])
      | .ok _ =>
          match teamsRes with
          | .error _ => (none, s, [.viewer, .teamsOfViewer])
          | .ok teams => (some teams, s, [.viewer, .teamsOfViewer])

/-- Embeds `getIssueByIdentifier` (part_000 lines 196-211, identical in
part_001).  `issueRes` is the `_client.issue(identifier)` fetch; the
source's `issue || null` maps an undefined resolution to null, i.e. both
are `none` here. -/
def getIssueByIdentifier (s : ModuleState) (identifier : String)
    (issueRes : Except Unit (Option Issue)) :
    Option Issue × ModuleState × List RemoteCall :=
  match s.client with
  | none => (none, s, [])
  | some _ =>
      match issueRes with
      | .error _ => (none, s, [.issue identifier])
      | .ok issue => (issue, s, [.issue identifier])

/-- Embeds `setContextIssueId` (part_000 lines 213-224, identical in
part_001).  A missing or empty id fails the `!issueId` guard and returns
false before any storage call; otherwise `_storage.update` is attempted
(recorded in the `StorageOp` trace) and a raise there returns false with
the stored value unchanged. -/
def setContextIssueId (s : ModuleState) (issueId : Option String)
    (updateRaises : Bool) : Bool × ModuleState × List StorageOp :=
  if jsFalsy issueId then (false, s, [])
  else if updateRaises then
    (false, s, [.update "linearContextIssueId" (issueId.getD "")])
  else
    (true, { s with contextIssueId := issueId },
      [.update "linearContextIssueId" (issueId.getD "")])

/-- Embeds `addContextIssueComment` (part_000 lines 226-252, identical in
part_001).  Guards in source order: no client, then empty comment text,
then the storage read of the context id (`getRaises` models
`_storage.get` raising), then a falsy stored id; only then is
`commentCreate` issued, whose raise or unsuccessful payload each yield
false. -/
def addContextIssueComment (s : ModuleState) (comment : String)
    (getRaises : Bool) (commentRes : Except Unit Bool) :
    Bool × ModuleState × List RemoteCall :=
  match s.client with
  | none => (false, s, [])
  | some _ =>
      if comment == "" then (false, s, [])
      else if getRaises then (false, s, [])
      else if jsFalsy s.contextIssueId then (false, s, [])
      else
        match commentRes with
        | .error _ => (false, s, [.commentCreate (s.contextIssueId.getD "") comment])
        | .ok success => (success, s, [.commentCreate (s.contextIssueId.getD "") comment])

/-- Embeds `getWorkflowStates` (part_000 lines 254-267, identical in
part_001). -/
def getWorkflowStates (s : ModuleState)
    (statesRes : Except Unit (List WorkflowState)) :
    Option (List WorkflowState) × ModuleState × List RemoteCall :=
  match s.client with
  | none => (none, s, [])
  | some _ =>
      match statesRes with
      | .error _ => (none, s, [.workflowStates])
      | .ok states => (some states, s, [.workflowStates])

/-- Embeds `setContextIssueStatus` (part_000 lines 269-294, identical in
part_001).  Same guard order as `addContextIssueComment`, then one
`issueUpdate` call. -/
def setContextIssueStatus (s : ModuleState) (status : String)
    (getRaises : Bool) (updateRes : Except Unit Bool) :
    Bool × ModuleState × List RemoteCall :=
  match s.client with
  | none => (false, s, [])
  | some _ =>
      if status == "" then (false, s, [])
      else if getRaises then (false, s, [])
      else if jsFalsy s.contextIssueId then (false, s, [])
      else
        match updateRes with
        | .error _ => (false, s, [.issueUpdate (s.contextIssueId.getD "") status])
        | .ok success => (success, s, [.issueUpdate (s.contextIssueId.getD "") status])

/-- Embeds `getAvailablePriorities` (part_000 lines 296-311, identical in
part_001). -/
def getAvailablePriorities (s : ModuleState)
    (prioritiesRes : Except Unit (List IssuePriorityValue)) :
    Option (List IssuePriorityValue) × ModuleState × List RemoteCall :=
  match s.client with
  | none => (none, s, [])
  | some _ =>
      match prioritiesRes with
      | .error _ => (none, s, [.issuePriorityValues])
      | .ok priorities => (some priorities, s, [.issuePriorityValues])

/-- Embeds `createIssue` (part_000 lines 328-359, identical in part_001).
With no client it returns undefined immediately; otherwise exactly one
`issueCreate` call is issued, and the payload is returned only when its
success flag holds (unsuccessful payload or raise yield undefined). -/
def createIssue (s : ModuleState) (title teamId : String)
    (description assigneeId stateId : Option String)
    (estimate priority : Option Int)
    (createRes : Except Unit IssuePayload) :
    Option IssuePayload × ModuleState × List RemoteCall :=
  match s.client with
  | none => (none, s, [])
  | some _ =>
      match createRes with
      | .error _ =>
          (none, s, [.issueCreate title teamId description assigneeId stateId estimate priority])
      | .ok issuePayload =>
          if issuePayload.success then
            (some issuePayload, s,
              [.issueCreate title teamId description assigneeId stateId estimate priority])
          else
            (none, s, [.issueCreate title teamId description assigneeId stateId estimate priority])

/-- Embeds `getContextIssue` (part_000 lines 361-376, identical in
part_001).  With no client it returns undefined; `getRaises` models the
`_storage.get` read raising; a falsy stored id returns undefined with no
fetch; otherwise one `_client.issue(issueId)` fetch is issued and its
resolution (or undefined on a raise) is returned. -/
def getContextIssue (s : ModuleState) (getRaises : Bool)
    (issueRes : Except Unit (Option Issue)) :
    Option Issue × ModuleState × List RemoteCall :=
  match s.client with
  | none => (none, s, [])
  | some _ =>
      if getRaises then (none, s, [])
      else if jsFalsy s.contextIssueId then (none, s, [])
      else
        match issueRes with
        | .error _ => (none, s, [.issue (s.contextIssueId.getD "")])
        | .ok issue => (issue, s, [.issue (s.contextIssueId.getD "")])

/-- The bundle assembled by `getContextIssueWithDetails`: the issue plus
its resolved relations; a missing relation is an explicit `none` field
(the source maps a null assignee/creator/team to undefined, and a null
subscriber or comment connection to an empty list via `?.nodes || []`). -/
structure DetailBundle where
  issue : Issue
  assignee : Option User
  creator : Option User
  team : Option Team
  subscribers : List User
  comments : List Comment
deriving DecidableEq, Repr

/-- Embeds `getContextIssueWithDetails` from part_000 lines 378-418.  The
five relation fetches are issued together under `Promise.all`: all five
calls appear in the trace, and if any of them rejects the single catch
returns null (no partial bundle).  Each relation oracle resolves to
`none` for a null relation / null connection; a connection resolving to
`some nodes` contributes its node list. -/
def getContextIssueWithDetails (s : ModuleState)
    (issueRes : Except Unit (Option Issue))
    (assigneeRes : Except Unit (Option User))
    (creatorRes : Except Unit (Option User))
    (teamRes : Except Unit (Option Team))
    (subscribersRes : Except Unit (Option (List User)))
    (commentsRes : Except Unit (Option (List Comment))) :
    Option DetailBundle × ModuleState × List RemoteCall :=
  match s.client with
  | none => (none, s, [])
  | some _ =>
      if jsFalsy s.contextIssueId then (none, s, [])
      else
        let issueId := s.contextIssueId.getD ""
        match issueRes with
        | .error _ => (none, s, [.issue issueId])
        | .ok none => (none, s, [.issue issueId])
        | .ok (some issue) =>
            let calls : List RemoteCall :=
              [.issue issueId, .issueAssignee issueId, .issueCreator issueId,
               .issueTeam issueId, .issueSubscribers issueId, .issueComments issueId 100]
            match assigneeRes, creatorRes, teamRes, subscribersRes, commentsRes with
            | .ok assignee, .ok creator, .ok team, .ok subscribersConnection,
              .ok commentsConnection =>
                (some { issue := issue, assignee := assignee, creator := creator,
                        team := team, subscribers := subscribersConnection.getD [],
                        comments := commentsConnection.getD [] }, s, calls)
            | _, _, _, _, _ => (none, s, calls)

/-- A concrete state with an established client handle, a persisted key and a
set context issue id, used by concrete scenarios below. -/
def stConnected : ModuleState :=
  { client := some (.apiKey "key-1"), apiKeySecret := some "key-1",
    contextIssueId := some "ISS-7" }

/-- A concrete state with no client handle and nothing persisted. -/
def stDisconnected : ModuleState :=
  { client := none, apiKeySecret := none, contextIssueId := none }

/-- A concrete state with no client handle but a persisted API key. -/
def stKeyOnly : ModuleState :=
  { client := none, apiKeySecret := some "key-9", contextIssueId := none }

/-- C1 counterexample: when deleting the persisted API key raises, `disconnect`
returns false and the in-memory client handle is NOT cleared — it still holds
the previous handle, so subsequent session-requiring calls still behave as
connected; the part_001 variant does the same.  This contradicts the claim
that the handle is cleared unconditionally even when the key-delete fails. -/
theorem disconnect_keyfail_keeps_client_cex :
    (disconnect stConnected true (.ok none)).1 = false ∧
    (disconnect stConnected true (.ok none)).2.client = some (.apiKey "key-1") ∧
    (disconnectP1 stConnected true).2.client = some (.apiKey "key-1") :=
  ⟨rfl, rfl, rfl⟩

/-- C1 (amended): when the key-delete succeeds, `disconnect` clears the
persisted API key and the in-memory client handle (regardless of the outcome
of the OAuth session probe) and returns true; when the key-delete raises, it
returns false and leaves the whole state — client handle included — unchanged.
Both module variants agree. -/
theorem disconnect_amended_spec (s : ModuleState) (deleteRaises : Bool)
    (sessionCheck : Except Unit (Option String)) :
    (disconnect s deleteRaises sessionCheck =
      if deleteRaises then (false, s)
      else (true, { s with apiKeySecret := none, client := none })) ∧
    (disconnectP1 s deleteRaises =
      if deleteRaises then (false, s)
      else (true, { s with apiKeySecret := none, client := none })) := by
  cases deleteRaises <;> simp [disconnect, disconnectP1]

/-- C2 counterexample: a `connect` run that ends in cancellation (the user
dismisses the authentication-method quick pick) while a client handle from a
previous session is still established returns false but leaves that handle in
place: the session state afterwards is still Authenticated, not
Unauthenticated. -/
theorem connect_cancel_keeps_client_cex :
    (connect stConnected (.ok none) (.ok none) (.ok none) (.ok ()) false).1 = false ∧
    (connect stConnected (.ok none) (.ok none) (.ok none) (.ok ()) false).2.client
      = some (.apiKey "key-1") :=
  ⟨rfl, rfl⟩

/-- C2 (amended): every run of `connect` that ends in cancellation or failure
returns false and leaves the module state unchanged — in particular, starting
from Unauthenticated (no client handle) it ends Unauthenticated, but a client
handle established before the call survives a failed run.  Both module
variants agree. -/
theorem connect_failure_preserves_state (s : ModuleState)
    (pick : Except Unit (Option AuthMethod))
    (oauthSession : Except Unit (Option String))
    (enteredKey : Except Unit (Option String))
    (viewerCheck : Except Unit Unit) (storeRaises : Bool)
    (oauthP1 : Except Unit (Option String)) :
    ((connect s pick oauthSession enteredKey viewerCheck storeRaises).1 = false →
      (connect s pick oauthSession enteredKey viewerCheck storeRaises).2 = s) ∧
    ((connectP1 s oauthP1).1 = false → (connectP1 s oauthP1).2 = s) := by
  constructor
  · intro h
    cases pick with
    | error u => rfl
    | ok om =>
      cases om with
      | none => rfl
      | some m =>
        cases m with
        | oauth =>
          cases oauthSession with
          | error u => rfl
          | ok t =>
            cases t with
            | none => rfl
            | some tok => simp [connect] at h
        | apiKeyEntry =>
          cases enteredKey with
          | error u => rfl
          | ok k =>
            cases hk : jsFalsy k with
            | true => simp [connect, hk]
            | false =>
              cases viewerCheck with
              | error u => simp [connect, hk]
              | ok u =>
                cases storeRaises with
                | true => simp [connect, hk]
                | false => simp [connect, hk] at h
  · intro h
    cases oauthP1 with
    | error u => rfl
    | ok t =>
      cases t with
      | none => rfl
      | some tok => simp [connectP1] at h

/-- C2 witness: concrete failing runs — a dismissed quick pick in the part_000
variant, a raising session request in the part_001 variant — leave the
concrete connected state unchanged. -/
theorem connect_failure_preserves_state_wit :
    (connect stConnected (.ok none) (.ok none) (.ok none) (.ok ()) false).2
      = stConnected ∧
    (connectP1 stConnected (.error ())).2 = stConnected :=
  ⟨(connect_failure_preserves_state stConnected (.ok none) (.ok none) (.ok none)
      (.ok ()) false (.error ())).1 rfl,
   (connect_failure_preserves_state stConnected (.ok none) (.ok none) (.ok none)
      (.ok ()) false (.error ())).2 rfl⟩

/-- C3: each of the ten session-requiring operations, invoked while no client
handle is established, returns its documented absent/false value, leaves the
state unchanged, and issues no remote client call at all, whatever the remote
oracles would have answered. -/
theorem noSession_ops_return_absent (s : ModuleState) (h : s.client = none)
    (viewerRes : Except Unit User) (issuesRes : Except Unit (List Issue))
    (teamsRes : Except Unit (List Team)) (identifier : String)
    (issueRes : Except Unit (Option Issue))
    (statesRes : Except Unit (List WorkflowState))
    (prioritiesRes : Except Unit (List IssuePriorityValue))
    (text status : String) (getRaises : Bool) (flagRes : Except Unit Bool)
    (title teamId : String) (description assigneeId stateId : Option String)
    (estimate priority : Option Int) (createRes : Except Unit IssuePayload)
    (assigneeRes creatorRes : Except Unit (Option User))
    (teamRes : Except Unit (Option Team))
    (subscribersRes : Except Unit (Option (List User)))
    (commentsRes : Except Unit (Option (List Comment))) :
    getMyIssues s viewerRes issuesRes = (none, s, []) ∧
    getMyTeams s viewerRes teamsRes = (none, s, []) ∧
    getIssueByIdentifier s identifier issueRes = (none, s, []) ∧
    getWorkflowStates s statesRes = (none, s, []) ∧
    getAvailablePriorities s prioritiesRes = (none, s, []) ∧
    addContextIssueComment s text getRaises flagRes = (false, s, []) ∧
    setContextIssueStatus s status getRaises flagRes = (false, s, []) ∧
    createIssue s title teamId description assigneeId stateId estimate priority
      createRes = (none, s, []) ∧
    getContextIssue s getRaises issueRes = (none, s, []) ∧
    getContextIssueWithDetails s issueRes assigneeRes creatorRes teamRes
      subscribersRes commentsRes = (none, s, []) := by
  refine ⟨?_, ?_, ?_, ?_, ?_, ?_, ?_, ?_, ?_, ?_⟩ <;>
    simp [getMyIssues, getMyTeams, getIssueByIdentifier, getWorkflowStates,
      getAvailablePriorities, addContextIssueComment, setContextIssueStatus,
      createIssue, getContextIssue, getContextIssueWithDetails, h]

/-- C3 witness: with the concrete disconnected state, getMyIssues returns the
absent value with an empty remote trace. -/
theorem noSession_ops_return_absent_wit :
    getMyIssues stDisconnected (.ok ⟨"u1"⟩) (.ok []) = (none, stDisconnected, []) :=
  (noSession_ops_return_absent stDisconnected rfl (.ok ⟨"u1"⟩) (.ok []) (.ok [])
    "ISS-1" (.ok none) (.ok []) (.ok []) "text" "state-1" false (.ok true)
    "title" "team-1" none none none none none
    (.ok { success := true, issue := ⟨"NEW-1"⟩ }) (.ok none) (.ok none) (.ok none)
    (.ok none) (.ok none)).1

/-- C4: with a client handle and a set context id, when the issue fetch
resolves to an issue, (a) if any of the five dependent relation fetches under
the join rejects, the whole call returns absent — never a partial bundle —
and (b) when all five resolve, a missing assignee relation shows up in the
bundle as an explicit absent field rather than causing a failure. -/
theorem getContextIssueWithDetails_all_or_nothing (s : ModuleState)
    (hc : s.client.isSome = true) (hid : jsFalsy s.contextIssueId = false)
    (issue : Issue)
    (assigneeRes creatorRes : Except Unit (Option User))
    (teamRes : Except Unit (Option Team))
    (subscribersRes : Except Unit (Option (List User)))
    (commentsRes : Except Unit (Option (List Comment))) :
    ((assigneeRes = .error () ∨ creatorRes = .error () ∨ teamRes = .error () ∨
        subscribersRes = .error () ∨ commentsRes = .error ()) →
      (getContextIssueWithDetails s (.ok (some issue)) assigneeRes creatorRes
        teamRes subscribersRes commentsRes).1 = none) ∧
    (∀ creator team subscribers comments,
      (getContextIssueWithDetails s (.ok (some issue)) (.ok none) (.ok creator)
        (.ok team) (.ok subscribers) (.ok comments)).1 =
        some { issue := issue, assignee := none, creator := creator, team := team,
               subscribers := subscribers.getD [], comments := comments.getD [] }) := by
  obtain ⟨cl, hcl⟩ := Option.isSome_iff_exists.mp hc
  constructor
  · rintro (rfl | rfl | rfl | rfl | rfl)
    · simp [getContextIssueWithDetails, hcl, hid]
    · cases assigneeRes <;> simp [getContextIssueWithDetails, hcl, hid]
    · cases assigneeRes <;> cases creatorRes <;>
        simp [getContextIssueWithDetails, hcl, hid]
    · cases assigneeRes <;> cases creatorRes <;> cases teamRes <;>
        simp [getContextIssueWithDetails, hcl, hid]
    · cases assigneeRes <;> cases creatorRes <;> cases teamRes <;>
        cases subscribersRes <;> simp [getContextIssueWithDetails, hcl, hid]
  · intro creator team subscribers comments
    simp [getContextIssueWithDetails, hcl, hid]

/-- C4 witness: in the concrete connected state with context id ISS-7, a
successful issue fetch whose comments fetch rejects yields the absent bundle,
while an all-successful fetch with no assignee and two comments yields a
bundle with an explicit absent assignee and the two comments in order. -/
theorem getContextIssueWithDetails_all_or_nothing_wit :
    (getContextIssueWithDetails stConnected (.ok (some ⟨"ISS-7"⟩)) (.ok none)
        (.ok (some ⟨"u2"⟩)) (.ok (some ⟨"t1"⟩)) (.ok (some [])) (.error ())).1
      = none ∧
    (getContextIssueWithDetails stConnected (.ok (some ⟨"ISS-7"⟩)) (.ok none)
        (.ok (some ⟨"u2"⟩)) (.ok (some ⟨"t1"⟩)) (.ok (some []))
        (.ok (some [⟨"c1"⟩, ⟨"c2"⟩]))).1
      = some { issue := ⟨"ISS-7"⟩, assignee := none, creator := some ⟨"u2"⟩,
               team := some ⟨"t1"⟩, subscribers := [],
               comments := [⟨"c1"⟩, ⟨"c2"⟩] } := by
  constructor
  · exact (getContextIssueWithDetails_all_or_nothing stConnected rfl (by decide)
      ⟨"ISS-7"⟩ (.ok none) (.ok (some ⟨"u2"⟩)) (.ok (some ⟨"t1"⟩))
      (.ok (some [])) (.error ())).1 (by simp)
  · exact (getContextIssueWithDetails_all_or_nothing stConnected rfl (by decide)
      ⟨"ISS-7"⟩ (.ok none) (.ok (some ⟨"u2"⟩)) (.ok (some ⟨"t1"⟩))
      (.ok (some [])) (.ok (some [⟨"c1"⟩, ⟨"c2"⟩]))).2 (some ⟨"u2"⟩)
      (some ⟨"t1"⟩) (some []) (some [⟨"c1"⟩, ⟨"c2"⟩])

/-- C5: setContextIssueId invoked with an undefined id or the empty string
returns false, attempts no storage update at all, and leaves the previously
persisted context id — indeed the whole state — unchanged, whether or not the
storage update would have raised. -/
theorem setContextIssueId_empty_rejected (s : ModuleState) (updateRaises : Bool) :
    setContextIssueId s none updateRaises = (false, s, []) ∧
    setContextIssueId s (some "") updateRaises = (false, s, []) := by
  constructor <;> simp [setContextIssueId, jsFalsy]

/-- C6: init restores a session silently with a fixed precedence: an OAuth
session always wins and establishes an access-token client (whatever key is
persisted); the persisted API key is consulted only when the OAuth probe
resolves to no session, and then establishes an api-key client; every internal
failure — the OAuth probe raising, the secret read raising, or neither
credential present — yields false; and from a fresh (no-client) state the
returned boolean is exactly whether a usable client handle now exists. -/
theorem init_restore_precedence (s : ModuleState)
    (oauthSession : Except Unit (Option String)) (keyGetRaises : Bool) :
    (∀ accessToken, oauthSession = .ok (some accessToken) →
      init s oauthSession keyGetRaises =
        (true, { s with client := some (.accessToken accessToken) })) ∧
    (oauthSession = .ok none → keyGetRaises = false →
      jsFalsy s.apiKeySecret = false →
      init s oauthSession keyGetRaises =
        (true, { s with client := some (.apiKey (s.apiKeySecret.getD "")) })) ∧
    (oauthSession = .error () →
      init s oauthSession keyGetRaises = (false, s)) ∧
    (oauthSession = .ok none → keyGetRaises = true →
      init s oauthSession keyGetRaises = (false, s)) ∧
    (oauthSession = .ok none → jsFalsy s.apiKeySecret = true →
      init s oauthSession keyGetRaises = (false, s)) ∧
    (s.client = none →
      (init s oauthSession keyGetRaises).1 =
        (init s oauthSession keyGetRaises).2.client.isSome) := by
  refine ⟨?_, ?_, ?_, ?_, ?_, ?_⟩
  · rintro accessToken rfl
    simp [init]
  · rintro rfl rfl hkey
    simp [init, hkey]
  · rintro rfl
    simp [init]
  · rintro rfl rfl
    simp [init]
  · rintro rfl hkey
    cases keyGetRaises <;> simp [init, hkey]
  · intro hnone
    rcases oauthSession with u | t
    · simp [init, hnone]
    · rcases t with _ | tok
      · cases keyGetRaises with
        | true => simp [init, hnone]
        | false =>
          cases hkey : jsFalsy s.apiKeySecret <;> simp [init, hkey, hnone]
      · simp [init]

/-- C6 witness: with an API key persisted but no client, an OAuth session wins
and yields an access-token client; with no OAuth session the persisted key is
used as fallback. -/
theorem init_restore_precedence_wit :
    init stKeyOnly (.ok (some "tok-1")) false =
      (true, { stKeyOnly with client := some (.accessToken "tok-1") }) ∧
    init stKeyOnly (.ok none) false =
      (true, { stKeyOnly with client := some (.apiKey "key-9") }) := by
  constructor
  · exact (init_restore_precedence stKeyOnly (.ok (some "tok-1")) false).1 "tok-1" rfl
  · exact (init_restore_precedence stKeyOnly (.ok none) false).2.1 rfl rfl (by decide)

/-- C7: addContextIssueComment validates an active session, then non-empty
text, then a set context issue id, in that order — the earliest failing check
returns false with no remote call, even when later checks would also fail —
and when all three hold it issues exactly one commentCreate call carrying the
stored id and the given text and returns the remote success flag (a raise in
the remote call yields false). -/
theorem addContextIssueComment_order (s : ModuleState) (text : String)
    (getRaises : Bool) (commentRes : Except Unit Bool) :
    (s.client = none →
      addContextIssueComment s text getRaises commentRes = (false, s, [])) ∧
    (s.client.isSome = true → text = "" →
      addContextIssueComment s text getRaises commentRes = (false, s, [])) ∧
    (s.client.isSome = true → text ≠ "" → getRaises = false →
      jsFalsy s.contextIssueId = true →
      addContextIssueComment s text getRaises commentRes = (false, s, [])) ∧
    (∀ issueId flag, s.client.isSome = true → text ≠ "" → getRaises = false →
      s.contextIssueId = some issueId → issueId ≠ "" → commentRes = .ok flag →
      addContextIssueComment s text getRaises commentRes =
        (flag, s, [.commentCreate issueId text])) ∧
    (s.client.isSome = true → text ≠ "" → getRaises = false →
      jsFalsy s.contextIssueId = false → commentRes = .error () →
      addContextIssueComment s text getRaises commentRes =
        (false, s, [.commentCreate (s.contextIssueId.getD "") text])) := by
  refine ⟨?_, ?_, ?_, ?_, ?_⟩
  · intro h
    simp [addContextIssueComment, h]
  · intro hc ht
    obtain ⟨cl, hcl⟩ := Option.isSome_iff_exists.mp hc
    simp [addContextIssueComment, hcl, ht]
  · intro hc ht hg hid
    obtain ⟨cl, hcl⟩ := Option.isSome_iff_exists.mp hc
    simp [addContextIssueComment, hcl, ht, hg, hid]
  · rintro issueId flag hc ht rfl hid hne rfl
    obtain ⟨cl, hcl⟩ := Option.isSome_iff_exists.mp hc
    simp [addContextIssueComment, hcl, ht, hid, jsFalsy, hne]
  · rintro hc ht rfl hid rfl
    obtain ⟨cl, hcl⟩ := Option.isSome_iff_exists.mp hc
    simp [addContextIssueComment, hcl, ht, hid]

/-- C7 witness: in the concrete connected state with context id ISS-7, a
non-empty comment whose remote call reports success posts exactly one comment
and returns true. -/
theorem addContextIssueComment_order_wit :
    addContextIssueComment stConnected "hello" false (.ok true) =
      (true, stConnected, [.commentCreate "ISS-7" "hello"]) :=
  (addContextIssueComment_order stConnected "hello" false (.ok true)).2.2.2.1
    "ISS-7" true rfl (by decide) rfl rfl (by decide) rfl

/-- C8: createIssue with an active session issues exactly one issueCreate call
carrying the given fields, leaves the state unchanged, and returns the created
payload handle exactly when the remote reports success; an unsuccessful
payload or a raise in the call yields absent. -/
theorem createIssue_success_iff (s : ModuleState) (hc : s.client.isSome = true)
    (title teamId : String) (description assigneeId stateId : Option String)
    (estimate priority : Option Int) (createRes : Except Unit IssuePayload) :
    (∀ payload, createRes = .ok payload →
      createIssue s title teamId description assigneeId stateId estimate
          priority createRes =
        ((if payload.success then some payload else none), s,
          [.issueCreate title teamId description assigneeId stateId estimate
            priority])) ∧
    (createRes = .error () →
      createIssue s title teamId description assigneeId stateId estimate
          priority createRes =
        (none, s,
          [.issueCreate title teamId description assigneeId stateId estimate
            priority])) := by
  obtain ⟨cl, hcl⟩ := Option.isSome_iff_exists.mp hc
  constructor
  · rintro payload rfl
    cases hp : payload.success <;> simp [createIssue, hcl, hp]
  · rintro rfl
    simp [createIssue, hcl]

/-- C8 witness: in the concrete connected state, creating "Fix bug" on
"team-1" with all optional fields absent and a successful remote payload
returns that payload and issues exactly one creation call; the same call with
an unsuccessful payload returns absent. -/
theorem createIssue_success_iff_wit :
    createIssue stConnected "Fix bug" "team-1" none none none none none
        (.ok { success := true, issue := ⟨"NEW-1"⟩ }) =
      (some { success := true, issue := ⟨"NEW-1"⟩ }, stConnected,
        [.issueCreate "Fix bug" "team-1" none none none none none]) ∧
    createIssue stConnected "Fix bug" "team-1" none none none none none
        (.ok { success := false, issue := ⟨"NEW-1"⟩ }) =
      (none, stConnected,
        [.issueCreate "Fix bug" "team-1" none none none none none]) := by
  constructor
  · have h := (createIssue_success_iff stConnected rfl "Fix bug" "team-1" none
      none none none none (.ok { success := true, issue := ⟨"NEW-1"⟩ })).1
      { success := true, issue := ⟨"NEW-1"⟩ } rfl
    simpa using h
  · have h := (createIssue_success_iff stConnected rfl "Fix bug" "team-1" none
      none none none none (.ok { success := false, issue := ⟨"NEW-1"⟩ })).1
      { success := false, issue := ⟨"NEW-1"⟩ } rfl
    simpa using h

/-- C9 counterexample: with no client handle established, setContextIssueId
"ISS-1" succeeds (returns true), yet the immediately following getContextIssue
issues no remote fetch at all — not one fetch with that id as the claim
states. -/
theorem setThenGet_noclient_cex :
    (setContextIssueId stDisconnected (some "ISS-1") false).1 = true ∧
    (getContextIssue (setContextIssueId stDisconnected (some "ISS-1") false).2.1
        false (.ok none)).2.2 = [] :=
  ⟨rfl, rfl⟩

/-- C9 (amended): provided a client handle is established and the storage read
does not raise, after a successful setContextIssueId with a non-empty id, an
immediately following getContextIssue attempts the remote issue fetch with
exactly that id, exactly once. -/
theorem setThenGet_fetch_once (s : ModuleState) (issueId : String)
    (issueRes : Except Unit (Option Issue)) (hc : s.client.isSome = true)
    (hne : issueId ≠ "") :
    (setContextIssueId s (some issueId) false).1 = true ∧
    (getContextIssue (setContextIssueId s (some issueId) false).2.1 false
        issueRes).2.2 = [RemoteCall.issue issueId] := by
  obtain ⟨cl, hcl⟩ := Option.isSome_iff_exists.mp hc
  constructor
  · simp [setContextIssueId, jsFalsy, hne]
  · cases issueRes <;>
      simp [setContextIssueId, getContextIssue, jsFalsy, hne, hcl]

/-- C9 witness: in the concrete connected state, setting ISS-1 then reading
the context issue fetches ISS-1 exactly once. -/
theorem setThenGet_fetch_once_wit :
    (setContextIssueId stConnected (some "ISS-1") false).1 = true ∧
    (getContextIssue (setContextIssueId stConnected (some "ISS-1") false).2.1
        false (.ok (some ⟨"ISS-1"⟩))).2.2 = [RemoteCall.issue "ISS-1"] :=
  setThenGet_fetch_once stConnected "ISS-1" (.ok (some ⟨"ISS-1"⟩)) rfl (by decide)

/-- C10: setContextIssueId requires no session: for any non-empty id and any
state — including one with no client handle — a non-raising storage update
persists exactly that id, returns true, and leaves the client handle (and the
stored API key) untouched. -/
theorem setContextIssueId_no_session (s : ModuleState) (issueId : String)
    (hne : issueId ≠ "") :
    setContextIssueId s (some issueId) false =
      (true, { s with contextIssueId := some issueId },
        [.update "linearContextIssueId" issueId]) ∧
    ({ s with contextIssueId := some issueId } : ModuleState).client = s.client := by
  constructor
  · simp [setContextIssueId, jsFalsy, hne]
  · rfl

/-- C10 witness: with no client handle at all, setting ISS-1 persists it and
returns true. -/
theorem setContextIssueId_no_session_wit :
    setContextIssueId stDisconnected (some "ISS-1") false =
      (true, { stDisconnected with contextIssueId := some "ISS-1" },
        [.update "linearContextIssueId" "ISS-1"]) :=
  (setContextIssueId_no_session stDisconnected "ISS-1" (by decide)).1

end Linear
